import Mathlib

/-!
Verification of the PowerMate driver (src/powermate/powermate.py).

The device-protocol layer is shallowly embedded: byte buffers are lists of
integers (`List Int` for outbound buffers, since the code stores `int(arg)`
without any range check, and `List Nat` for inbound byte reports), Python
exceptions become an `Except` result, and the observer/notify machinery
becomes explicit state passing.
-/

/-- Python exception taxonomy as it appears in the source: `ValueError` and
`IOError` are handled specially by the watch loop, every other exception
falls into the generic `except Exception` arm. -/
inductive PyErr where
  | valueError
  | ioError
  | other
  deriving DecidableEq, Repr

/-- Errors raised synchronously by the encoding layer.  `encodingError` is the
`IndexError` escaping `Powermate.__command` when a parameter index falls
outside the feature-report list (the spec names it `EncodingError`);
`invalidArgument` is the `AssertionError` of the `pulse_speed` setter (the
spec names it `InvalidArgumentError`). -/
inductive EncErr where
  | encodingError
  | invalidArgument
  deriving DecidableEq, Repr

instance {ε α : Type} [DecidableEq ε] [DecidableEq α] : DecidableEq (Except ε α) := fun a b =>
  match a, b with
  | .ok x, .ok y => decidable_of_iff (x = y) (by simp)
  | .error x, .error y => decidable_of_iff (x = y) (by simp)
  | .ok _, .error _ => .isFalse (by simp)
  | .error _, .ok _ => .isFalse (by simp)

/-- Python `int(q)` on a real-valued argument: truncation toward zero
(numerator `tdiv` denominator on the reduced fraction).  On an integer
argument this is the identity. -/
def pyInt (q : ℚ) : ℤ :=
  q.num.tdiv q.den

/-- Python list assignment `l[i] = v`: succeeds only when `i` is in bounds,
otherwise raises `IndexError` (modelled as `none`). -/
def listSet (l : List Int) (i : Nat) (v : Int) : Option (List Int) :=
  if i < l.length then some (l.set i v) else none

/-- The parameter-writing loop of `Powermate.__command`:
`for i in range(len(args)): featureReport[i + 3] = int(args[i])`,
started at index `i`.  An out-of-bounds write aborts with the
`IndexError` (spec: `EncodingError`). -/
def writeArgs (buf : List Int) (i : Nat) (args : List ℚ) : Except EncErr (List Int) :=
  match args with
  | [] => .ok buf
  | a :: rest =>
    match listSet buf i (pyInt a) with
    | none => .error .encodingError
    | some buf' => writeArgs buf' (i + 1) rest

/-- `Powermate.__command`: builds
`featureReport = [0x41, 1, command, 0, 0, 0, 0, 0]` (an 8-element list —
note: no leading report-id byte) and writes `int(args[i])` at index `i + 3`;
the finished buffer is what is handed to `send_feature_report`. -/
def encode_command (command : Int) (args : List ℚ) : Except EncErr (List Int) :=
  writeArgs [0x41, 1, command, 0, 0, 0, 0, 0] 3 args

/-- `Powermate.pulse_speed` getter: reads back a feature report and decodes
the effective signed speed from byte 4 (regime flags) and byte 5 (raw
magnitude): fast (`& 0x20`) before normal (`& 0x10`) before slow. -/
def decode_pulse_speed (report : List Nat) : Int :=
  let speed : Int := (report.getD 5 0 : Int)
  if report.getD 4 0 &&& 0x20 ≠ 0 then
    speed + 255
  else if report.getD 4 0 &&& 0x10 ≠ 0 then
    255
  else
    254 - speed

/-- A Python value handed to the `pulse_speed` setter: either a tuple of
numbers or some non-tuple object. -/
inductive PValue where
  | tuple (elems : List ℚ)
  | other
  deriving Repr

/-- `Powermate.pulse_speed` setter:
`assert isinstance(value, tuple) and len(value) == 3` (an `AssertionError`,
spec: `InvalidArgumentError`, when the shape is wrong), then
`table, mode, speed = value` and
`self.__command(self._SET_PULSE_MODE, table, mode, speed)` with
`_SET_PULSE_MODE = 4`. -/
def pulse_speed_set (value : PValue) : Except EncErr (List Int) :=
  match value with
  | .tuple es =>
    if es.length = 3 then encode_command 4 es else .error .invalidArgument
  | .other => .error .invalidArgument

/-- Direction of a button event: the source interns the strings
`"up"` / `"down"`. -/
inductive Dir where
  | up
  | down
  deriving DecidableEq, Repr

/-- A semantic event delivered to observers: the source builds the tuples
`(_BUTTON, up/down)` and `(_WHEEL, delta)`. -/
inductive Event where
  | button (d : Dir)
  | wheel (delta : Int)
  deriving DecidableEq, Repr

/-- One primitive effect performed by `Powermate.__parse_event`, in source
order: either the assignment `self.__button_state = button_state` or a call
`self.notify(event)`. -/
inductive Effect where
  | setState (b : Nat)
  | notifyEv (e : Event)
  deriving DecidableEq, Repr

/-- `Powermate.__parse_event` as its trace of primitive effects.  The
remembered state is `none` for the initial `None` ("unknown") and
`some b` for a previously seen raw byte; Python's `data[0] != None`
is true for every byte, which the `Option` inequality mirrors.
The button block runs first (state assignment, then the notify), the
wheel block second: `data[1]`, when positive, is sign-corrected by
subtracting 256 when bit 0x80 is set, then notified. -/
def parse_event_actions (st : Option Nat) (data : List Nat) : List Effect :=
  let button_state := data.getD 0 0
  (if some button_state ≠ st then
    [Effect.setState button_state,
     Effect.notifyEv (.button (if button_state ≠ 0 then .down else .up))]
  else []) ++
  (let wheel_delta := data.getD 1 0
   if 0 < wheel_delta then
     [Effect.notifyEv (.wheel
       (if wheel_delta &&& 0x80 ≠ 0 then (wheel_delta : Int) - 256
        else (wheel_delta : Int)))]
   else [])

/-- Replay a trace of primitive effects: the final remembered button state
and the list of notified events, in order. -/
def run_actions (st : Option Nat) : List Effect → Option Nat × List Event
  | [] => (st, [])
  | .setState b :: rest => run_actions (some b) rest
  | .notifyEv e :: rest =>
    let (st', evs) := run_actions st rest
    (st', e :: evs)

/-- `Powermate.__parse_event` at the observable level: new remembered state
and the notified events in order. -/
def parse_event (st : Option Nat) (data : List Nat) : Option Nat × List Event :=
  run_actions st (parse_event_actions st data)

/-- Feed a sequence of 2-byte input reports `(byte0, byte1)` through
`__parse_event`, threading the remembered button state; returns the final
state and the per-report event lists. -/
def parse_sequence (st : Option Nat) : List (Nat × Nat) → Option Nat × List (List Event)
  | [] => (st, [])
  | (b0, b1) :: rest =>
    let (st', evs) := parse_event st [b0, b1]
    let (stf, evss) := parse_sequence st' rest
    (stf, evs :: evss)

/-- A registered observer callback, as the watch loop sees it: given the
event and the current ambient state `σ` (which records the callback's side
effects), it returns the new state and, possibly, a raised exception. -/
def Callback (σ : Type) : Type := Event → σ → σ × Option PyErr

/-- `Powermate.notify`: `for callback in self.__callbacks: callback(event)`.
There is no per-callback exception handling, so the first exception aborts
the loop and propagates to the caller; side effects made before the raise
are kept. -/
def notify {σ : Type} (callbacks : List (Callback σ)) (event : Event) (s : σ) :
    σ × Option PyErr :=
  match callbacks with
  | [] => (s, none)
  | cb :: rest =>
    let r := cb event s
    match r.2 with
    | some err => (r.1, some err)
    | none => notify rest event r.1

/-- Outcome of one iteration of `Powermate.__watch` for the hosting thread. -/
inductive LoopOutcome where
  | running
  | stopped
  | crashed
  deriving DecidableEq, Repr

/-- The exception handling of one `Powermate.__watch` iteration, applied to
whatever escaped `__parse_event` (hence `notify`): `except ValueError:
return` ends the loop, `except IOError: pass` and the logging
`except Exception` arm both continue; nothing is re-raised. -/
def watch_step (result : Option PyErr) : LoopOutcome :=
  match result with
  | none => .running
  | some .valueError => .stopped
  | some .ioError => .running
  | some .other => .running

/-- Modelled from the spec: `encode_pulse_speed` is not in src/ (the
setter there only passes a raw 3-tuple through); §4.1 defines the inverse
mapping used when setting a semantic speed: `speed < 255` gives table 0 and
payload `254 − speed` (slow), `speed == 255` gives table 1 and payload 0
(normal), `speed > 255` gives table 2 and payload `speed − 255` (fast). -/
def encode_pulse_speed (speed : Int) : Nat × Int :=
  if speed < 255 then (0, 254 - speed)
  else if speed = 255 then (1, 0)
  else (2, speed - 255)

/-- Modelled from the spec: `buildReportFrom` is not in src/; §6 gives the
read-back layout — index 4 is the flag byte (bit 4 = normal-speed flag,
bit 5 = fast-speed flag, selected by the table), index 5 the raw pulse-speed
magnitude. -/
def buildReportFrom (table : Nat) (payload : Int) : List Nat :=
  [0, 0x41, 1, 4,
   if table = 2 then 0x20 else if table = 1 then 0x10 else 0,
   payload.toNat, 0, 0, 0]

/-! ## Helper lemmas -/

/-- Masking with a single-bit mask is nonzero exactly when that bit is set. -/
theorem and_two_pow_ne_zero_iff (n i : Nat) :
    n &&& 2 ^ i ≠ 0 ↔ n.testBit i = true := by
  rw [Nat.and_two_pow]
  cases h : n.testBit i <;> simp [h, (Nat.two_pow_pos i).ne']

/-- The event list produced by one `__parse_event` call: an optional button
event (on a state transition) followed by an optional wheel event (on a
nonzero delta byte). -/
theorem parse_event_events (st : Option Nat) (data : List Nat) :
    (parse_event st data).2 =
      (if some (data.getD 0 0) ≠ st then
        [Event.button (if data.getD 0 0 ≠ 0 then .down else .up)]
      else []) ++
      (if 0 < data.getD 1 0 then
        [Event.wheel (if data.getD 1 0 &&& 0x80 ≠ 0 then (data.getD 1 0 : Int) - 256
                      else (data.getD 1 0 : Int))]
      else []) := by
  unfold parse_event parse_event_actions
  simp only [List.getD_eq_getElem?_getD]
  split <;> split <;> simp [run_actions] <;> split <;> simp [run_actions]

/-! ## Claims -/

/-- Claim C1 (code_bug evidence): on the set-static-brightness command with
parameters `[0, 100]`, `__command` produces an 8-byte buffer
`[0x41, 1, 1, 0, 100, 0, 0, 0]` — it omits the leading report-id `0` byte,
so the buffer is not 9 bytes long and its first four bytes are not
`[0, 0x41, 1, command_code]` as the claim (and the class's own
`_REPORT_ID = 0` / `_REPORT_LENGTH = 9` read-back layout) prescribes. -/
theorem c1_command_encoder_eval :
    encode_command 1 [0, 100] = .ok [0x41, 1, 1, 0, 100, 0, 0, 0] ∧
    ([0x41, 1, 1, 0, 100, 0, 0, 0] : List Int).length = 8 ∧
    ([0x41, 1, 1, 0, 100, 0, 0, 0] : List Int).take 4 ≠ [0, 0x41, 1, 1] := by
  decide

/-- Claim C2 counterexample: the claim asserts no event at step 1, but
feeding `(0, 0)` with remembered state Unknown (`None`) emits a
`Button(Up)` event, because Python's `0 != None` is true. -/
theorem c2_step_one_emits_button_up :
    (parse_sequence none [(0, 0), (1, 5), (1, 0), (0, 0x81)]).2.getD 0 [] =
      [Event.button .up] ∧
    [Event.button .up] ≠ ([] : List Event) := by
  decide

/-- Claim C2 as amended: the report sequence
`[(0,0), (1,5), (1,0), (0,0x81)]` from remembered state Unknown yields a
`Button(Up)` event at step 1 (Unknown differs from raw 0), `Button(Down)`
then `Wheel(+5)` at step 2, nothing at step 3, and `Button(Up)` then
`Wheel(-127)` at step 4. -/
theorem c2_event_sequence :
    parse_sequence none [(0, 0), (1, 5), (1, 0), (0, 0x81)] =
      (some 0,
       [[Event.button .up],
        [Event.button .down, Event.wheel 5],
        [],
        [Event.button .up, Event.wheel (-127)]]) := by
  decide

/-- Claim C3: for every 9-byte feature report, the pulse-speed decoder
returns `raw + 255` when bit 5 (mask 0x20) of byte 4 is set, else `255`
(ignoring byte 5) when bit 4 (mask 0x10) is set, else `254 - raw` — fast
checked before normal checked before slow. -/
theorem c3_decode_pulse_speed_regimes (b0 b1 b2 b3 b4 b5 b6 b7 b8 : Nat) :
    decode_pulse_speed [b0, b1, b2, b3, b4, b5, b6, b7, b8] =
      if b4.testBit 5 then (b5 : Int) + 255
      else if b4.testBit 4 then (255 : Int)
      else 254 - (b5 : Int) := by
  have h5 := and_two_pow_ne_zero_iff b4 5
  have h4 := and_two_pow_ne_zero_iff b4 4
  norm_num at h5 h4
  have e : decode_pulse_speed [b0, b1, b2, b3, b4, b5, b6, b7, b8] =
      (if b4 &&& 32 ≠ 0 then (b5 : Int) + 255
       else if b4 &&& 16 ≠ 0 then (255 : Int)
       else 254 - (b5 : Int)) := rfl
  rw [e]
  by_cases t5 : b4.testBit 5 = true
  · rw [if_pos (h5.mpr t5), if_pos t5]
  · have n5 : ¬(b4 &&& 32 ≠ 0) := fun hc => t5 (h5.mp hc)
    rw [if_neg n5, if_neg t5]
    by_cases t4 : b4.testBit 4 = true
    · rw [if_pos (h4.mpr t4), if_pos t4]
    · have n4 : ¬(b4 &&& 16 ≠ 0) := fun hc => t4 (h4.mp hc)
      rw [if_neg n4, if_neg t4]

/-- Claim C4 counterexample: two registered callbacks (each appends its tag
to the log; the first then raises), one notified event — `notify` stops at
the first callback's exception, so the second callback never runs (its tag
`2` never reaches the log). -/
theorem c4_first_callback_exception_stops_notify :
    notify [fun _ (log : List Nat) => (log ++ [1], some PyErr.other),
            fun _ (log : List Nat) => (log ++ [2], none)]
        (Event.wheel 1) [] = ([1], some PyErr.other) ∧
    (2 : Nat) ∉ [1] := by
  constructor
  · rfl
  · decide

/-- Claim C4 as amended: a callback that raises prevents every remaining
registered callback from being notified of that event — the exception
propagates out of `notify` — but it does not crash the polling loop: the
watch iteration catches it (a `ValueError` ends the loop via `return`, an
`IOError` or any other exception lets the loop continue), and no outcome of
an iteration is a crash of the hosting thread. -/
theorem c4_exception_propagation {σ : Type} (cb : Callback σ)
    (rest : List (Callback σ)) (ev : Event) (s : σ) (s' : σ) (err : PyErr)
    (h : cb ev s = (s', some err)) :
    notify (cb :: rest) ev s = (s', some err) ∧
    (err ≠ PyErr.valueError → watch_step (some err) = .running) ∧
    (∀ r : Option PyErr, watch_step r ≠ .crashed) := by
  refine ⟨?_, ?_, ?_⟩
  · rw [notify, h]
  · intro hv
    cases err with
    | valueError => exact absurd rfl hv
    | ioError => rfl
    | other => rfl
  · intro r
    rcases r with _ | e
    · simp [watch_step]
    · cases e <;> simp [watch_step]

/-- Claim C4 amended, witnessed at a concrete pair of callbacks: the first
appends `1` to the log and raises a generic exception, so notification
stops with the log at `[1]` and the watch loop keeps running. -/
theorem c4_exception_propagation_witness :
    notify [fun _ (log : List Nat) => (log ++ [3], some PyErr.other),
            fun _ (log : List Nat) => (log ++ [4], none)]
        (Event.wheel 2) [] = ([3], some PyErr.other) ∧
    (PyErr.other ≠ PyErr.valueError → watch_step (some PyErr.other) = .running) ∧
    (∀ r : Option PyErr, watch_step r ≠ .crashed) :=
  c4_exception_propagation
    (fun _ (log : List Nat) => (log ++ [3], some PyErr.other))
    [fun _ (log : List Nat) => (log ++ [4], none)]
    (Event.wheel 2) [] [3] PyErr.other rfl

/-- Claim C5: `__parse_event` emits a Button event iff byte 0 of the report
differs from the remembered state, and in that case its effect trace begins
with the state assignment to the new raw value, followed by the Button
notification — the remembered state is updated before observers hear of
it. -/
theorem c5_button_edge_triggered (st : Option Nat) (data : List Nat) :
    ((∃ d, Effect.notifyEv (Event.button d) ∈ parse_event_actions st data) ↔
      some (data.getD 0 0) ≠ st) ∧
    (some (data.getD 0 0) ≠ st →
      ∃ rest, parse_event_actions st data =
        Effect.setState (data.getD 0 0) ::
        Effect.notifyEv (Event.button (if data.getD 0 0 ≠ 0 then .down else .up)) ::
        rest) := by
  simp only [List.getD_eq_getElem?_getD]
  constructor
  · constructor
    · rintro ⟨d, hd⟩
      intro heq
      rw [parse_event_actions] at hd
      simp only [List.getD_eq_getElem?_getD] at hd
      rw [if_neg (not_not_intro heq), List.nil_append] at hd
      split at hd <;> simp at hd
    · intro hst
      refine ⟨if data[0]?.getD 0 ≠ 0 then .down else .up, ?_⟩
      rw [parse_event_actions]
      simp only [List.getD_eq_getElem?_getD]
      rw [if_pos hst]
      exact List.mem_cons_of_mem _ (List.mem_cons_self _ _)
  · intro hst
    refine ⟨(if 0 < data[1]?.getD 0 then
        [Effect.notifyEv (.wheel
          (if data[1]?.getD 0 &&& 0x80 ≠ 0 then ((data[1]?.getD 0 : Nat) : Int) - 256
           else ((data[1]?.getD 0 : Nat) : Int)))]
      else []), ?_⟩
    rw [parse_event_actions]
    simp only [List.getD_eq_getElem?_getD]
    rw [if_pos hst]
    rfl

/-- Claim C5 witnessed at remembered state Unknown and report `[1, 0]`: the
trace is exactly the assignment of raw state 1 followed by the
`Button(Down)` notification. -/
theorem c5_button_edge_triggered_witness :
    ∃ rest, parse_event_actions none [1, 0] =
      Effect.setState 1 ::
      Effect.notifyEv (Event.button (if (1 : Nat) ≠ 0 then .down else .up)) ::
      rest :=
  (c5_button_edge_triggered none [1, 0]).2 (by decide)

/-- The parameter-writing loop of `__command` raises once some parameter's
target index falls outside the 8-slot feature-report list. -/
theorem writeArgs_overflow (args : List ℚ) : ∀ (buf : List Int) (i : Nat),
    buf.length = 8 → i < 9 → 8 < i + args.length →
    writeArgs buf i args = .error .encodingError := by
  induction args with
  | nil =>
    intro buf i _ h1 h2
    simp at h2
    omega
  | cons a rest ih =>
    intro buf i hlen hi9 hsum
    rw [writeArgs]
    rcases Nat.lt_or_ge i 8 with hi | hi
    · have hset : listSet buf i (pyInt a) = some (buf.set i (pyInt a)) := by
        simp [listSet, hlen, hi]
      rw [hset]
      exact ih _ _ (by simp [hlen]) (by omega)
        (by simp at hsum ⊢; omega)
    · have hset : listSet buf i (pyInt a) = none := by
        simp only [listSet, hlen]
        rw [if_neg (by omega)]
      rw [hset]

/-- Claim C6: the command encoder fails with `EncodingError` for every
parameter sequence of 6 or more parameters — the write of the sixth
parameter targets index 8 of the 8-element feature-report list (the spec's
`EncodingError` is the `IndexError` this raises at the call site). -/
theorem c6_encode_command_too_many_params (command : Int) (args : List ℚ)
    (h : 6 ≤ args.length) :
    encode_command command args = .error .encodingError := by
  apply writeArgs_overflow args _ 3 (by simp) (by omega) (by omega)

/-- Claim C6 witnessed on six zero parameters. -/
theorem c6_encode_command_too_many_params_witness :
    encode_command 4 [0, 0, 0, 0, 0, 0] = .error .encodingError :=
  c6_encode_command_too_many_params 4 [0, 0, 0, 0, 0, 0] (by decide)

/-- Claim C7: the `pulse_speed` setter rejects every value that is not a
3-element tuple with `InvalidArgumentError` (the spec's name for the
`AssertionError` of the setter's shape assertion), synchronously. -/
theorem c7_pulse_speed_set_rejects_malformed (v : PValue)
    (h : ∀ es, v = PValue.tuple es → es.length ≠ 3) :
    pulse_speed_set v = .error .invalidArgument := by
  cases v with
  | other => rfl
  | tuple es =>
    rw [pulse_speed_set]
    rw [if_neg (h es rfl)]

/-- Claim C7 witnessed on the 2-element tuple `(1, 2)`. -/
theorem c7_pulse_speed_set_rejects_malformed_witness :
    pulse_speed_set (PValue.tuple [1, 2]) = .error .invalidArgument :=
  c7_pulse_speed_set_rejects_malformed (PValue.tuple [1, 2])
    (by intro es he; cases he; decide)

/-- Claim C8: for each pulse-speed value in {-1, 0, 1, 254, 255, 256, 510},
encoding with the (spec-modelled) `encode_pulse_speed`, building a
read-back report, and decoding with the source's pulse-speed decoder
reproduces the value; the boundary values 254, 255 and 256 select table 0
(slow), table 1 (normal) and table 2 (fast) respectively. -/
theorem c8_pulse_speed_round_trip :
    (decode_pulse_speed (buildReportFrom (encode_pulse_speed (-1)).1
      (encode_pulse_speed (-1)).2) = -1) ∧
    (decode_pulse_speed (buildReportFrom (encode_pulse_speed 0).1
      (encode_pulse_speed 0).2) = 0) ∧
    (decode_pulse_speed (buildReportFrom (encode_pulse_speed 1).1
      (encode_pulse_speed 1).2) = 1) ∧
    (decode_pulse_speed (buildReportFrom (encode_pulse_speed 254).1
      (encode_pulse_speed 254).2) = 254) ∧
    (decode_pulse_speed (buildReportFrom (encode_pulse_speed 255).1
      (encode_pulse_speed 255).2) = 255) ∧
    (decode_pulse_speed (buildReportFrom (encode_pulse_speed 256).1
      (encode_pulse_speed 256).2) = 256) ∧
    (decode_pulse_speed (buildReportFrom (encode_pulse_speed 510).1
      (encode_pulse_speed 510).2) = 510) ∧
    (encode_pulse_speed 254).1 = 0 ∧
    (encode_pulse_speed 255).1 = 1 ∧
    (encode_pulse_speed 256).1 = 2 := by
  decide

/-- Claim C9: a Wheel event is emitted exactly when byte 1 of the input
report is nonzero; its signed delta always lies in [-128, -1] ∪ [1, 127];
and the raw byte 0x80 yields the edge delta -128. -/
theorem c9_wheel_delta_range (st : Option Nat) (data : List Nat)
    (hbyte : data.getD 1 0 < 256) :
    ((∃ δ, Event.wheel δ ∈ (parse_event st data).2) ↔ data.getD 1 0 ≠ 0) ∧
    (∀ δ, Event.wheel δ ∈ (parse_event st data).2 →
      (-128 ≤ δ ∧ δ ≤ -1) ∨ (1 ≤ δ ∧ δ ≤ 127)) ∧
    Event.wheel (-128) ∈ (parse_event none [0, 0x80]).2 := by
  obtain ⟨d, hd⟩ : ∃ d, data.getD 1 0 = d := ⟨_, rfl⟩
  obtain ⟨b, hb0⟩ : ∃ b, data.getD 0 0 = b := ⟨_, rfl⟩
  rw [hd] at hbyte
  rw [hd]
  have hmem : ∀ δ : Int, Event.wheel δ ∈ (parse_event st data).2 ↔
      (0 < d ∧ δ = (if d &&& 0x80 ≠ 0 then (d : Int) - 256 else (d : Int))) := by
    intro δ
    rw [parse_event_events, hd, hb0, List.mem_append]
    by_cases hw : 0 < d
    · rw [if_pos hw]
      by_cases hbtn : some b ≠ st
      · rw [if_pos hbtn]; simp [hw]
      · rw [if_neg hbtn]; simp [hw]
    · rw [if_neg hw]
      by_cases hbtn : some b ≠ st
      · rw [if_pos hbtn]; simp [hw]
      · rw [if_neg hbtn]; simp [hw]
  refine ⟨⟨?_, ?_⟩, ?_, ?_⟩
  · rintro ⟨δ, hin⟩
    have := (hmem δ).mp hin
    omega
  · intro hnz
    exact ⟨_, (hmem _).mpr ⟨Nat.pos_of_ne_zero hnz, rfl⟩⟩
  · intro δ hin
    obtain ⟨hpos, hδ⟩ := (hmem δ).mp hin
    by_cases hbit : d &&& 0x80 ≠ 0
    · rw [if_pos hbit] at hδ
      have h2 := and_two_pow_ne_zero_iff d 7
      norm_num at h2
      have hge : 2 ^ 7 ≤ d := Nat.testBit_implies_ge (h2.mp hbit)
      norm_num at hge
      omega
    · rw [if_neg hbit] at hδ
      have hz : d &&& 128 = 0 := not_not.mp hbit
      have h2 := and_two_pow_ne_zero_iff d 7
      norm_num at h2
      have ht : d.testBit 7 = false := by
        cases h : d.testBit 7
        · rfl
        · exact absurd hz (h2.mpr h)
      have h := Nat.testBit_to_div_mod (x := d) (i := 7)
      rw [ht] at h
      norm_num at h
      omega
  · decide

/-- Claim C10: the `pulse_speed` setter performs no range validation on the
tuple elements — every 3-element tuple is accepted, whatever its values,
and the pulse-mode command is sent with each element coerced by Python's
truncating `int()`; the resulting buffer carries `pyInt t`, `pyInt m`,
`pyInt s` verbatim (negative or out-of-byte-range included). -/
theorem c10_pulse_speed_set_no_range_check (t m s : ℚ) :
    pulse_speed_set (PValue.tuple [t, m, s]) =
      .ok [0x41, 1, 4, pyInt t, pyInt m, pyInt s, 0, 0] :=
  rfl

/-- Claim C9 witnessed on remembered state 0 and report `[0, 5]` (byte 1 in
range): the emitted delta 5 lies in the positive band. -/
theorem c9_wheel_delta_range_witness :
    (([0, 5] : List Nat).getD 1 0 < 256) ∧
    ((-128 ≤ (5 : Int) ∧ (5 : Int) ≤ -1) ∨ (1 ≤ (5 : Int) ∧ (5 : Int) ≤ 127)) :=
  ⟨by decide, (c9_wheel_delta_range (some 0) [0, 5] (by decide)).2.1 5 (by decide)⟩
